import Mathlib

set_option maxRecDepth 8000

namespace Conduit

/-!  A shallow embedding of the conduit relay layer: the channel broker
(src/socket.ts) and the command dispatcher
(src/conduit_mcp_server/server/websocket.ts).  JavaScript values appearing
in frames are modelled by `JsonValue`; JavaScript `Map`s and plain objects
are modelled by association lists in insertion order; timers are modelled
as per-request timer descriptors together with explicit firing functions. -/

/-- Model of a parsed JSON value (the result of JSON.parse). -/
inductive JsonValue : Type where
  | str (s : String)
  | num (n : Int)
  | bool (b : Bool)
  | null
  | obj (fields : List (String × JsonValue))
  | arr (elems : List JsonValue)

/-- JavaScript truthiness of a JSON value ("" , 0, false, null are falsy;
objects and arrays are always truthy). -/
def truthy : JsonValue → Bool
  | .str s => s != ""
  | .num n => n != 0
  | .bool b => b
  | .null => false
  | .obj _ => true
  | .arr _ => true

/-- Field lookup in a JS object literal (first occurrence; JSON.parse keeps
the last duplicate key, but parsed objects are modelled with unique keys). -/
def lookupField : List (String × JsonValue) → String → Option JsonValue
  | [], _ => none
  | (k', v) :: rest, k => if k' = k then some v else lookupField rest k

/-- Property access `v.k`: `undefined` (`none`) on non-objects. -/
def getField : JsonValue → String → Option JsonValue
  | .obj fields, k => lookupField fields k
  | _, _ => none

/-- Optional-chained property access `v?.k`. -/
def optField (v : Option JsonValue) (k : String) : Option JsonValue :=
  v.bind (fun w => getField w k)

/-- JavaScript `a || b` on possibly-undefined values: the first operand if
it is defined and truthy, otherwise the second. -/
def jsOrVal (a b : Option JsonValue) : Option JsonValue :=
  match a with
  | some v => if truthy v then some v else b
  | none => b

/-- Truthiness of a possibly-undefined value (`undefined` is falsy). -/
def jsTruthyOpt : Option JsonValue → Bool
  | some v => truthy v
  | none => false

mutual
/-- JavaScript string conversion as used in template literals. -/
def jsToStr : JsonValue → String
  | .str s => s
  | .num n => toString n
  | .bool b => cond b "true" "false"
  | .null => "null"
  | .obj _ => "[object Object]"
  | .arr elems => jsArrStr elems

/-- Array toString: elements joined by commas, null rendered empty. -/
def jsArrStr : List JsonValue → String
  | [] => ""
  | [JsonValue.null] => ""
  | [e] => jsToStr e
  | JsonValue.null :: rest => "," ++ jsArrStr rest
  | e :: rest => jsToStr e ++ "," ++ jsArrStr rest
end

/-- Template-literal rendering of a possibly-undefined value. -/
def jsDisplayOpt : Option JsonValue → String
  | none => "undefined"
  | some v => jsToStr v

mutual
/-- JSON.stringify (string escaping of special characters is not modelled;
none of the verified properties inspect escaped text). -/
def jsonStringify : JsonValue → String
  | .str s => "\"" ++ s ++ "\""
  | .num n => toString n
  | .bool b => cond b "true" "false"
  | .null => "null"
  | .obj fields => "\x7b" ++ stringifyFields fields ++ "\x7d"
  | .arr elems => "[" ++ stringifyElems elems ++ "]"

/-- JSON.stringify of the field list of an object. -/
def stringifyFields : List (String × JsonValue) → String
  | [] => ""
  | [(k, v)] => "\"" ++ k ++ "\":" ++ jsonStringify v
  | (k, v) :: rest => "\"" ++ k ++ "\":" ++ jsonStringify v ++ "," ++ stringifyFields rest

/-- JSON.stringify of the element list of an array. -/
def stringifyElems : List JsonValue → String
  | [] => ""
  | [e] => jsonStringify e
  | e :: rest => jsonStringify e ++ "," ++ stringifyElems rest
end

/-- Substring test on character lists: does s start with pat? -/
def leadsWith : List Char → List Char → Bool
  | [], _ => true
  | _ :: _, [] => false
  | p :: ps, c :: cs => (p == c) && leadsWith ps cs

/-- Substring occurrence on character lists. -/
def occursInChars (pat : List Char) : List Char → Bool
  | [] => leadsWith pat []
  | c :: cs => leadsWith pat (c :: cs) || occursInChars pat cs

/-- JavaScript `s.includes(pat)`. -/
def strContains (s pat : String) : Bool :=
  occursInChars pat.toList s.toList

/-! Association-list model of JavaScript `Map` (insertion order preserved,
keys unique by construction). -/

/-- Map.get (first matching key). -/
def tblGet {κ α : Type} [DecidableEq κ] : List (κ × α) → κ → Option α
  | [], _ => none
  | (k', v) :: rest, k => if k' = k then some v else tblGet rest k

/-- Map.set: replace in place if the key exists, else append. -/
def tblSet {κ α : Type} [DecidableEq κ] : List (κ × α) → κ → α → List (κ × α)
  | [], k, v => [(k, v)]
  | (k', v') :: rest, k, v =>
    if k' = k then (k, v) :: rest else (k', v') :: tblSet rest k v

/-- Map.delete (removes every binding of the key; on well-formed tables the
key occurs at most once, matching Map semantics). -/
def tblDel {κ α : Type} [DecidableEq κ] : List (κ × α) → κ → List (κ × α)
  | [], _ => []
  | (k', v') :: rest, k =>
    if k' = k then tblDel rest k else (k', v') :: tblDel rest k

/-- Map.has. -/
def hasKey {κ α : Type} [DecidableEq κ] (l : List (κ × α)) (k : κ) : Bool :=
  (tblGet l k).isSome

/-! ## Channel broker (src/socket.ts) -/

/-- The broker's aggregate statistics object. -/
structure Stats where
  totalConnections : Nat
  activeConnections : Nat
  messagesSent : Nat
  messagesReceived : Nat
  errors : Nat

/-- Abstract handle for one ServerWebSocket connection. -/
abbrev ConnId := Nat

/-- Per-connection data: `ws.data.clientId`, `ws.data.channel`, and whether
`ws.readyState === WebSocket.OPEN`. -/
structure ConnInfo where
  clientId : String
  channel : Option String
  isOpen : Bool

/-- The broker's mutable state: the `channels` map (channel name to member
set, in insertion order), the connections, and the stats counters. -/
structure BrokerState where
  channels : List (String × List ConnId)
  conns : List (ConnId × ConnInfo)
  stats : Stats

/-- A parsed inbound frame as destructured by the broker message handler. -/
structure BrokerFrame where
  type : Option JsonValue
  channel : Option JsonValue
  id : Option JsonValue
  message : Option JsonValue

/-- An envelope sent by the broker to a client. -/
inductive OutMsg : Type where
  | system (message : String) (channel : Option String) (id : Option JsonValue)
  | broadcast (message : Option JsonValue) (sender : String) (channel : String)
  | errorMsg (message : String)
  | progressFwd (frame : BrokerFrame)

/-- `ws.data?.clientId || "unknown_client"`. -/
def clientIdOf (st : BrokerState) (c : ConnId) : String :=
  match tblGet st.conns c with
  | some info => info.clientId
  | none => "unknown_client"

/-- `ws.data?.channel`. -/
def connChannelOf (st : BrokerState) (c : ConnId) : Option String :=
  (tblGet st.conns c).bind (fun info => info.channel)

/-- `client.readyState === WebSocket.OPEN`. -/
def isOpenConn (st : BrokerState) (c : ConnId) : Bool :=
  match tblGet st.conns c with
  | some info => info.isOpen
  | none => false

/-- `ws.data.channel = channelName`. -/
def setConnChannel (st : BrokerState) (c : ConnId) (ch : String) : BrokerState :=
  { st with conns :=
      match tblGet st.conns c with
      | some info => tblSet st.conns c { info with channel := some ch }
      | none => st.conns }

/-- stats.messagesSent += n. -/
def addSent (s : Stats) (n : Nat) : Stats :=
  { s with messagesSent := s.messagesSent + n }

/-- stats.errors += n. -/
def addErrors (s : Stats) (n : Nat) : Stats :=
  { s with errors := s.errors + n }

/-- stats.messagesReceived += n. -/
def addReceived (s : Stats) (n : Nat) : Stats :=
  { s with messagesReceived := s.messagesReceived + n }

/-- The invalid-channel reply of the join and message cases: an error
envelope to the sender, messagesSent++ and errors++. -/
def channelErrorReply (st : BrokerState) (sender : ConnId) (msg : String) :
    BrokerState × List (ConnId × OutMsg) :=
  ({ st with stats := addErrors (addSent st.stats 1) 1 },
   [(sender, OutMsg.errorMsg msg)])

/-- The join case for a validated non-empty channel name: create the channel
set if absent, add the sender, record the channel on the connection, confirm
to the joiner and notify the other open members.  Note that the sender is
not removed from any channel it previously joined. -/
def joinValid (st : BrokerState) (sender : ConnId) (frame : BrokerFrame) (s : String) :
    BrokerState × List (ConnId × OutMsg) :=
  let channels1 :=
    match tblGet st.channels s with
    | some _ => st.channels
    | none => st.channels ++ [(s, [])]
  let members := (tblGet channels1 s).getD []
  let members1 := if members.contains sender then members else members ++ [sender]
  let st1 := setConnChannel { st with channels := tblSet channels1 s members1 } sender s
  let cid := clientIdOf st sender
  let others := members1.filter (fun c => (c != sender) && isOpenConn st1 c)
  let sends :=
    (sender, OutMsg.system ("Successfully joined channel: " ++ s) (some s) frame.id) ::
      others.map (fun c =>
        (c, OutMsg.system ("Client " ++ cid ++ " has joined the channel.") (some s) none))
  ({ st1 with stats := addSent st1.stats (1 + others.length) }, sends)

/-- case "join" of the broker message handler. -/
def joinCase (st : BrokerState) (sender : ConnId) (frame : BrokerFrame) :
    BrokerState × List (ConnId × OutMsg) :=
  match frame.channel with
  | some (JsonValue.str s) =>
    if s = "" then channelErrorReply st sender "Channel name is required for join."
    else joinValid st sender frame s
  | _ => channelErrorReply st sender "Channel name is required for join."

/-- case "message": resolve the channel from the frame or the connection,
require membership, then broadcast to every open member of the channel.
The forEach over channelClients has no client-other-than-sender guard, so
the sender is among the recipients when it is open. -/
def messageCase (st : BrokerState) (sender : ConnId) (frame : BrokerFrame) :
    BrokerState × List (ConnId × OutMsg) :=
  let chanVal := jsOrVal frame.channel ((connChannelOf st sender).map JsonValue.str)
  match chanVal with
  | some (JsonValue.str s) =>
    if s = "" then channelErrorReply st sender "Channel name is required for message."
    else
      match tblGet st.channels s with
      | none =>
        channelErrorReply st sender "Must join the channel first or provide a valid channel."
      | some members =>
        if members.contains sender then
          let targets := members.filter (fun c => isOpenConn st c)
          ({ st with stats := addSent st.stats targets.length },
           targets.map (fun c =>
             (c, OutMsg.broadcast frame.message (clientIdOf st sender) s)))
        else
          channelErrorReply st sender "Must join the channel first or provide a valid channel."
  | _ => channelErrorReply st sender "Channel name is required for message."

/-- case "progress_update": forward the whole frame verbatim to every open
member of the resolved channel; invalid or unknown channels are ignored
without an error reply. -/
def progressCase (st : BrokerState) (sender : ConnId) (frame : BrokerFrame) :
    BrokerState × List (ConnId × OutMsg) :=
  let chanVal := jsOrVal frame.channel ((connChannelOf st sender).map JsonValue.str)
  match chanVal with
  | some (JsonValue.str s) =>
    if s = "" then (st, [])
    else
      match tblGet st.channels s with
      | none => (st, [])
      | some members =>
        let targets := members.filter (fun c => isOpenConn st c)
        ({ st with stats := addSent st.stats targets.length },
         targets.map (fun c => (c, OutMsg.progressFwd frame)))
  | _ => (st, [])

/-- default case: reply with an error envelope naming the unknown type,
messagesSent++ and errors++. -/
def unknownTypeCase (st : BrokerState) (sender : ConnId) (typeDisplay : String) :
    BrokerState × List (ConnId × OutMsg) :=
  ({ st with stats := addErrors (addSent st.stats 1) 1 },
   [(sender, OutMsg.errorMsg ("Unknown message type: " ++ typeDisplay))])

/-- The broker's websocket.message handler on an already-parsed frame:
messagesReceived++, then the switch on data.type. -/
def handleBrokerMessage (st0 : BrokerState) (sender : ConnId) (frame : BrokerFrame) :
    BrokerState × List (ConnId × OutMsg) :=
  let st := { st0 with stats := addReceived st0.stats 1 }
  match frame.type with
  | some (JsonValue.str s) =>
    if s = "join" then joinCase st sender frame
    else if s = "message" then messageCase st sender frame
    else if s = "progress_update" then progressCase st sender frame
    else unknownTypeCase st sender s
  | other => unknownTypeCase st sender (jsDisplayOpt other)

/-! ## Command dispatcher (src/conduit_mcp_server/server/websocket.ts) -/

/-- The timer currently scheduled for a pending request.  A `command` timer
is the progressive timeout of sendCommandToFigma's createTimeout closure
(remaining extensions, current timeoutExtension multiplier, base timeoutMs);
a `progressExt` timer is the fixed-window timer installed by
handleProgressUpdate, whose reject message captures the progress frame's
commandType rendering. -/
inductive TimerKind : Type where
  | command (remaining : Nat) (multiplier : Nat) (baseMs : Nat)
  | progressExt (durationMs : Nat) (commandDisplay : String)

/-- One entry of the pendingRequests map (the resolve/reject continuations
are represented by the settlement events the step functions emit). -/
structure PendingEntry where
  timer : TimerKind
  lastActivity : Nat

/-- The module-level ws handle: absent, or a socket with a readyState. -/
inductive WsConn : Type where
  | noSocket
  | socket (readyState : Nat)

/-- WebSocket.OPEN. -/
def wsOPEN : Nat := 1

/-- `ws && ws.readyState === WebSocket.OPEN`. -/
def wsIsOpen : WsConn → Bool
  | .noSocket => false
  | .socket r => r == wsOPEN

/-- The dispatcher module's mutable state. -/
structure DispatcherState where
  pending : List (String × PendingEntry)
  currentChannel : Option String
  savedServerUrl : String
  savedPort : Nat
  savedReconnectInterval : Nat
  conn : WsConn

/-- The module-initialization values of the dispatcher state. -/
def initialDispatcherState : DispatcherState :=
  { pending := [], currentChannel := none, savedServerUrl := "",
    savedPort := 0, savedReconnectInterval := 0, conn := WsConn.noSocket }

/-- setConnectionConfig: store the connection parameters. -/
def setConnectionConfig (st : DispatcherState) (serverUrl : String)
    (port reconnectInterval : Nat) : DispatcherState :=
  { st with savedServerUrl := serverUrl, savedPort := port,
            savedReconnectInterval := reconnectInterval }

/-- An inbound frame as destructured by the dispatcher handlers (the typed
fields of the WebSocketMessage interface; `message` is accessed dynamically
and is kept as a JSON value). -/
structure WSMessage where
  type : Option String
  id : Option String
  result : Option JsonValue
  error : Option JsonValue
  message : Option JsonValue

/-- How a pending request's promise is settled. -/
inductive Settled : Type where
  | resolved (result : Option JsonValue)
  | rejected (message : String)

/-- A settlement produced by the response matcher, tagged with the
matchType string that resolveRequest logs. -/
structure SettleEvent where
  id : String
  outcome : Settled
  matchType : String

/-- The Error message resolveRequest rejects with:
`typeof error === 'string' ? error : JSON.stringify(error)`. -/
def errToMessage : JsonValue → String
  | .str s => s
  | v => jsonStringify v

/-- resolveRequest's settlement decision: reject when the error value is
truthy, otherwise resolve with the result. -/
def resolveOutcome (result error : Option JsonValue) : Settled :=
  match error with
  | some e => if truthy e then .rejected (errToMessage e) else .resolved result
  | none => .resolved result

/-- resolveRequest: clear the timer, settle the promise and delete the
entry; a no-op when the id is no longer pending. -/
def resolveRequest (st : DispatcherState) (id : String)
    (result error : Option JsonValue) (matchType : String) :
    DispatcherState × Option SettleEvent :=
  match tblGet st.pending id with
  | none => (st, none)
  | some _ =>
    ({ st with pending := tblDel st.pending id },
     some ⟨id, resolveOutcome result error, matchType⟩)

/-- Truthiness of a possibly-undefined string. -/
def truthyStrOpt : Option String → Bool
  | some s => s != ""
  | none => false

/-- `topLevelId && pendingRequests.has(topLevelId)`. -/
def idMatchesPending (p : List (String × PendingEntry)) : Option String → Bool
  | some s => (s != "") && hasKey p s
  | none => false

/-- `nestedMessageId && pendingRequests.has(nestedMessageId)` where the
nested id is a dynamically-accessed JSON value: a non-string id can never
equal a key of the string-keyed Map. -/
def jsonIdMatchesPending (p : List (String × PendingEntry)) : Option JsonValue → Bool
  | some (.str s) => (s != "") && hasKey p s
  | _ => false

/-- The string content of a matched id value. -/
def jsonIdString : Option JsonValue → String
  | some (.str s) => s
  | _ => ""

/-- Map.has on a dynamically-typed candidate key. -/
def pendingHasJson (p : List (String × PendingEntry)) : Option JsonValue → Bool
  | some (.str s) => hasKey p s
  | _ => false

/-- `typeof v === 'object' && v !== null`. -/
def isJsObjectOpt : Option JsonValue → Bool
  | some (.obj _) => true
  | some (.arr _) => true
  | _ => false

/-- Object.keys(v).length. -/
def jsKeysCount : Option JsonValue → Nat
  | some (.obj fields) => fields.length
  | some (.arr elems) => elems.length
  | _ => 0

/-- Strategy 4's inner guard: the nested object is not just an id echo. -/
def strategy4Inner (nm : Option JsonValue) : Bool :=
  decide (jsKeysCount nm > 1) ||
    (decide (jsKeysCount nm = 1) && !(jsTruthyOpt (optField nm "id")))

/-- Strategy 5's scan: the first pending id that fuzzily matches the
top-level id (either is a substring of the other). -/
def findFuzzy (p : List (String × PendingEntry)) (tid : String) : Option String :=
  (p.find? (fun q => strContains q.1 tid || strContains tid q.1)).map (fun q => q.1)

/-- Strategy 6's shape test: an object whose type field is "PAGE" and whose
children field is an array. -/
def isDocInfoShape (v? : Option JsonValue) : Bool :=
  isJsObjectOpt v? &&
    (match optField v? "type" with
     | some (.str s) => s == "PAGE"
     | _ => false) &&
    (match optField v? "children" with
     | some (.arr _) => true
     | _ => false)

/-- Strategy 6's scan: the first pending id hinting at a document-info
command. -/
def findDocPending (p : List (String × PendingEntry)) : Option String :=
  (p.find? (fun q =>
    strContains q.1.toLower "document_info" || strContains q.1.toLower "get_document")).map
    (fun q => q.1)

/-- Strategy 7's accumulator: the first-seen entry with strictly greatest
lastActivity. -/
def pickMostRecent (l : List (String × PendingEntry)) : Option (String × PendingEntry) :=
  l.foldl
    (fun best q =>
      match best with
      | none => some q
      | some b => if q.2.lastActivity > b.2.lastActivity then some q else some b)
    none

/-- Strategy 7's scan: among pending ids containing the command name
(case-insensitively), the most recently active one. -/
def findMostRecentCmd (p : List (String × PendingEntry)) (c : String) : Option String :=
  (pickMostRecent (p.filter (fun q => strContains q.1.toLower c.toLower))).map (fun q => q.1)

/-- The `command as string` cast on the nested command field (a non-string
command would fault at toLowerCase; the modelled domain follows the
declared WebSocketMessage type and keeps it a string). -/
def cmdTypeStr : Option JsonValue → Option String
  | some (.str s) => some s
  | _ => none

/-- Strategy 7's synthesized fallback result object. -/
def fallbackCmdResult (c : String) : JsonValue :=
  .obj [("success", .bool true), ("command", .str c),
        ("note", .str "Result inferred by command type match")]

/-- The ordered matching cascade of handleMessageResponse: the first
strategy that fires determines the id to settle, the result and error
values passed to resolveRequest, and the matchType tag.  Strategy 5's
result/error-presence test is checked inside its loop in the source but
does not depend on the loop variable, so it is hoisted here. -/
def strategyMatch (st : DispatcherState) (m : WSMessage) :
    Option (String × Option JsonValue × Option JsonValue × String) :=
  let pending := st.pending
  let topLevelId := m.id
  let nestedMessage := m.message
  let nestedMessageId := optField nestedMessage "id"
  let topLevelResult := m.result
  let nestedMessageResult := optField nestedMessage "result"
  let topLevelError := m.error
  let nestedMessageError := optField nestedMessage "error"
  if idMatchesPending pending topLevelId && (topLevelResult.isSome || topLevelError.isSome) then
    some (topLevelId.getD "", topLevelResult, topLevelError, "direct")
  else if idMatchesPending pending topLevelId &&
      (nestedMessageResult.isSome || nestedMessageError.isSome) then
    some (topLevelId.getD "", nestedMessageResult, nestedMessageError, "nested_direct_id")
  else if jsonIdMatchesPending pending nestedMessageId &&
      (nestedMessageResult.isSome || nestedMessageError.isSome) then
    some (jsonIdString nestedMessageId, nestedMessageResult, nestedMessageError,
      "nested_message_id")
  else if idMatchesPending pending topLevelId && isJsObjectOpt nestedMessage &&
      nestedMessageResult.isNone && nestedMessageError.isNone &&
      strategy4Inner nestedMessage then
    some (topLevelId.getD "", nestedMessage, none, "object_as_result")
  else
    let s5 :=
      if truthyStrOpt topLevelId &&
          (topLevelResult.isSome || nestedMessageResult.isSome ||
            topLevelError.isSome || nestedMessageError.isSome) then
        findFuzzy pending (topLevelId.getD "")
      else none
    match s5 with
    | some pid =>
      some (pid, jsOrVal topLevelResult nestedMessageResult,
        jsOrVal topLevelError nestedMessageError, "fuzzy_id")
    | none =>
      let potentialDocInfo := jsOrVal nestedMessageResult topLevelResult
      let s6 := if isDocInfoShape potentialDocInfo then findDocPending pending else none
      match s6 with
      | some pid => some (pid, potentialDocInfo, none, "heuristic_document_info")
      | none =>
        match cmdTypeStr (optField nestedMessage "command") with
        | some c =>
          if (c != "") && decide (0 < pending.length) then
            match findMostRecentCmd pending c with
            | some pid =>
              some (pid,
                jsOrVal (jsOrVal nestedMessageResult topLevelResult)
                  (some (fallbackCmdResult c)),
                jsOrVal nestedMessageError topLevelError, "command_type_match")
            | none => none
          else none
        | none => none

/-- handleMessageResponse: run the cascade; on a match, resolveRequest the
matched id; otherwise the frame is logged and ignored. -/
def handleMessageResponse (st : DispatcherState) (m : WSMessage) :
    DispatcherState × Option SettleEvent :=
  match strategyMatch st m with
  | some (id, r, e, mt) => resolveRequest st id r e mt
  | none => (st, none)

/-- `jsonMessage.id || (jsonMessage.message?.id as string)`. -/
def progressRequestId (m : WSMessage) : Option JsonValue :=
  jsOrVal (m.id.map JsonValue.str) (optField m.message "id")

/-- The `progressData.commandType || 'unknown'` rendering captured by the
progress-extension timer's reject message. -/
def progressCommandDisplay (m : WSMessage) : String :=
  match optField (optField m.message "data") "commandType" with
  | some v => if truthy v then jsToStr v else "unknown"
  | none => "unknown"

/-- handleProgressUpdate: false when the frame is not a progress_update;
otherwise true (handled), updating lastActivity and replacing the timer
with a fresh 60000ms extension timer when the id names a pending request
and progress data is present, and ignoring the frame otherwise. -/
def handleProgressUpdate (st : DispatcherState) (m : WSMessage) (now : Nat) :
    DispatcherState × Bool :=
  if m.type = some "progress_update" then
    let progressData := optField m.message "data"
    let requestId := progressRequestId m
    if jsTruthyOpt requestId && pendingHasJson st.pending requestId &&
        jsTruthyOpt progressData then
      let entry : PendingEntry :=
        ⟨TimerKind.progressExt 60000 (progressCommandDisplay m), now⟩
      let pending1 := tblSet st.pending (jsonIdString requestId) entry
      ({ st with pending := pending1 }, true)
    else (st, true)
  else (st, false)

/-- The ws.on message handler after JSON.parse: progress updates first,
then the response matcher. -/
def handleIncoming (st : DispatcherState) (m : WSMessage) (now : Nat) :
    DispatcherState × Option SettleEvent :=
  let pr := handleProgressUpdate st m now
  if pr.2 then (pr.1, none)
  else handleMessageResponse pr.1 m

/-- The final command-timeout rejection message. -/
def timeoutMessage (elapsedMs : Nat) : String :=
  "Request to Figma timed out after " ++ toString elapsedMs ++ "ms"

/-- The progress-extension timeout rejection message. -/
def progressTimeoutMessage (commandDisplay : String) : String :=
  "Request to Figma (command: " ++ commandDisplay ++
    ") timed out after progress update."

/-- Firing of the timer currently scheduled for a request (cleared timers
never fire, so only the entry's current timer is firable).  A command timer
with extensions left reschedules itself with an incremented multiplier and
one fewer extension; with none left, or for a progress-extension timer, the
entry is deleted and the promise rejected. -/
def fireTimeout (st : DispatcherState) (id : String) (now : Nat) :
    DispatcherState × Option (String × String) :=
  match tblGet st.pending id with
  | none => (st, none)
  | some entry =>
    match entry.timer with
    | .command remaining multiplier baseMs =>
      if 0 < remaining then
        let entry1 : PendingEntry :=
          ⟨TimerKind.command (remaining - 1) (multiplier + 1) baseMs, entry.lastActivity⟩
        ({ st with pending := tblSet st.pending id entry1 }, none)
      else
        ({ st with pending := tblDel st.pending id },
         some (id, timeoutMessage (now - entry.lastActivity)))
    | .progressExt _ cd =>
      ({ st with pending := tblDel st.pending id },
       some (id, progressTimeoutMessage cd))

/-- The connection-lost rejection message of the close handler
(`reason || 'N/A'`). -/
def connectionLostMessage (code : Nat) (reason : String) (id : String) : String :=
  "Connection lost (Code: " ++ toString code ++ ", Reason: " ++
    (if reason = "" then "N/A" else reason) ++ "). Request " ++ id ++ " failed."

/-- The ws.on close handler's effect on the pending table: every pending
request's timer is cleared and its promise rejected with a connection-lost
error, then the table is cleared. -/
def handleClose (st : DispatcherState) (code : Nat) (reason : String) :
    DispatcherState × List (String × String) :=
  ({ st with pending := [] },
   st.pending.map (fun q => (q.1, connectionLostMessage code reason q.1)))

/-- The observable outcome of a sendCommandToFigma call. -/
inductive SendOutcome : Type where
  | rejected (message : String)
  | lazyConnect
  | registered (id : String)

/-- The outbound envelope built by sendCommandToFigma (the correlation id
duplicated at the envelope level and inside the nested message). -/
structure OutgoingFrame where
  id : String
  type : String
  channel : Option JsonValue
  messageId : String
  command : String
  params : List (String × JsonValue)

/-- The full observable result of one sendCommandToFigma call: the new
state, the promise outcome, the transmitted frame if any, and whether a
lazy connectToFigma was initiated. -/
structure SendResult where
  state : DispatcherState
  outcome : SendOutcome
  sentFrame : Option OutgoingFrame
  connectInitiated : Bool

/-- sendCommandToFigma.  When the socket is not open: reject when no
connection config was saved, else initiate a lazy connect and park the
send.  When open: require a current channel for any command except join,
build the envelope, register the pending request with the progressive
command timer (3 extensions, multiplier 1, base timeoutMs), and transmit.
The ws.send itself is modelled as succeeding. -/
def sendCommandToFigma (st : DispatcherState) (command : String)
    (params : List (String × JsonValue)) (timeoutMs : Nat) (freshId : String)
    (now : Nat) : SendResult :=
  if !(wsIsOpen st.conn) then
    if st.savedServerUrl = "" then
      ⟨st, .rejected "Not connected to Figma. Please ensure connection config is set.",
       none, false⟩
    else ⟨st, .lazyConnect, none, true⟩
  else if !(wsIsOpen st.conn) then
    ⟨st, .rejected "Not connected to Figma. Please ensure Figma plugin is running.",
     none, false⟩
  else if (command != "join") && !(truthyStrOpt st.currentChannel) then
    ⟨st, .rejected "Must join a channel before sending commands", none, false⟩
  else
    let frame : OutgoingFrame :=
      { id := freshId,
        type := if command = "join" then "join" else "message",
        channel :=
          if command = "join" then lookupField params "channel"
          else st.currentChannel.map JsonValue.str,
        messageId := freshId,
        command := command,
        params := tblSet params "commandId" (JsonValue.str freshId) }
    let entry : PendingEntry := ⟨TimerKind.command 3 1 timeoutMs, now⟩
    ⟨{ st with pending := tblSet st.pending freshId entry },
     .registered freshId, some frame, false⟩

/-! ## Concrete sample inputs used by the closed theorems and witnesses -/

/-- Zeroed stats object. -/
def stats0 : Stats := ⟨0, 0, 0, 0, 0⟩

/-- Broker state with channel "design" holding two open members. -/
def twoMemberState : BrokerState :=
  { channels := [("design", [0, 1])],
    conns := [(0, ⟨"client_a", some "design", true⟩),
              (1, ⟨"client_b", some "design", true⟩)],
    stats := stats0 }

/-- A message frame addressed to channel "design". -/
def designMessageFrame : BrokerFrame :=
  { type := some (.str "message"), channel := some (.str "design"), id := none,
    message := some (.str "hello") }

/-- Broker state with one connected client and no channels yet. -/
def oneClientState : BrokerState :=
  { channels := [], conns := [(0, ⟨"client_a", none, true⟩)], stats := stats0 }

/-- A join frame for the given channel. -/
def joinFrame (ch : String) : BrokerFrame :=
  { type := some (.str "join"), channel := some (.str ch), id := none, message := none }

/-- A frame with an unrecognized type. -/
def pingFrame : BrokerFrame :=
  { type := some (.str "ping"), channel := none, id := none, message := none }

/-- Dispatcher state with one fresh pending request "cmd1". -/
def pendingCmd1State : DispatcherState :=
  { initialDispatcherState with
      pending := [("cmd1", ⟨TimerKind.command 3 1 10, 100⟩)] }

/-- Dispatcher state with one fresh pending request "abc". -/
def pendingAbcState : DispatcherState :=
  { initialDispatcherState with
      pending := [("abc", ⟨TimerKind.command 3 1 60000, 5⟩)] }

/-- A response frame with no top-level id, whose nested message carries the
pending id "abc" and a result. -/
def nestedIdFrame : WSMessage :=
  { type := none, id := none, result := none, error := none,
    message := some (.obj [("id", .str "abc"), ("result", .num 42)]) }

/-- A progress_update frame for the pending id "abc". -/
def progressKnownFrame : WSMessage :=
  { type := some "progress_update", id := some "abc", result := none, error := none,
    message := some (.obj [("data", .obj [("status", .str "working"), ("progress", .num 50)])]) }

/-- A progress_update frame for an id that is not pending. -/
def progressUnknownFrame : WSMessage :=
  { type := some "progress_update", id := some "zzz", result := none, error := none,
    message := some (.obj [("data", .obj [("status", .str "working")])]) }

/-- The pending entry installed by a progress update at the given time. -/
def progressEntry (m : WSMessage) (now : Nat) : PendingEntry :=
  ⟨TimerKind.progressExt 60000 (progressCommandDisplay m), now⟩

/-- Dispatcher state with an open socket and no channel joined. -/
def openNoChannelState : DispatcherState :=
  { initialDispatcherState with conn := WsConn.socket 1 }

/-! ## Table lemmas -/

theorem tblGet_tblSet_self {κ α : Type} [DecidableEq κ] (l : List (κ × α)) (k : κ) (v : α) :
    tblGet (tblSet l k v) k = some v := by
  induction l with
  | nil => simp [tblSet, tblGet]
  | cons p rest ih =>
    obtain ⟨k', v'⟩ := p
    by_cases h : k' = k
    · simp [tblSet, tblGet, h]
    · simp [tblSet, tblGet, h, ih]

theorem tblGet_tblDel_self {κ α : Type} [DecidableEq κ] (l : List (κ × α)) (k : κ) :
    tblGet (tblDel l k) k = none := by
  induction l with
  | nil => simp [tblDel, tblGet]
  | cons p rest ih =>
    obtain ⟨k', v'⟩ := p
    by_cases h : k' = k
    · simp [tblDel, h, ih]
    · simp [tblDel, tblGet, h, ih]

theorem hasKey_tblSet_self {κ α : Type} [DecidableEq κ] (l : List (κ × α)) (k : κ) (v : α) :
    hasKey (tblSet l k v) k = true := by
  simp [hasKey, tblGet_tblSet_self]

theorem hasKey_tblDel_self {κ α : Type} [DecidableEq κ] (l : List (κ × α)) (k : κ) :
    hasKey (tblDel l k) k = false := by
  simp [hasKey, tblGet_tblDel_self]

/-! ## Claim theorems -/

/-- Claim C1 (code bug witnessed at a failing input): with channel "design"
holding the two open members 0 and 1, a message frame from member 0 is
broadcast to BOTH members — including the sender itself, which therefore
does receive the broadcast.  The channelClients.forEach of the message case
lacks the client-is-not-the-sender guard that the join-notification loop
has, contradicting the spec sentence and the handler's own docstring
("Broadcasts the received message to all other clients"). -/
theorem c1_sender_receives_own_broadcast :
    (handleBrokerMessage twoMemberState 0 designMessageFrame).2 =
      [(0, OutMsg.broadcast (some (JsonValue.str "hello")) "client_a" "design"),
       (1, OutMsg.broadcast (some (JsonValue.str "hello")) "client_a" "design")] := rfl

/-- Claim C2 (code bug witnessed at a failing input): after connection 0
joins channel "A" and then successfully joins channel "B", it is still a
member of A's member set (while ws.data.channel records "B"): the join case
never removes the connection from its previous channel, violating the
at-most-one-channel invariant ("last join wins"). -/
theorem c2_prior_membership_retained :
    tblGet ((handleBrokerMessage
        (handleBrokerMessage oneClientState 0 (joinFrame "A")).1 0 (joinFrame "B")).1).channels
      "A" = some [0] ∧
    tblGet ((handleBrokerMessage
        (handleBrokerMessage oneClientState 0 (joinFrame "A")).1 0 (joinFrame "B")).1).channels
      "B" = some [0] ∧
    connChannelOf ((handleBrokerMessage
        (handleBrokerMessage oneClientState 0 (joinFrame "A")).1 0 (joinFrame "B")).1) 0 =
      some "B" :=
  ⟨rfl, rfl, rfl⟩

/-- Claim C10: a well-formed frame whose type is a string other than
"join", "message" and "progress_update" is answered with exactly one error
envelope, addressed to the sending connection and naming the unknown type
(so nothing is broadcast to any channel member), and the error counter is
incremented by one. -/
theorem c10_unknown_type_error_reply (st : BrokerState) (sender : ConnId)
    (frame : BrokerFrame) (t : String)
    (hty : frame.type = some (JsonValue.str t))
    (h1 : t ≠ "join") (h2 : t ≠ "message") (h3 : t ≠ "progress_update") :
    (handleBrokerMessage st sender frame).2 =
      [(sender, OutMsg.errorMsg ("Unknown message type: " ++ t))] ∧
    (handleBrokerMessage st sender frame).1.stats.errors = st.stats.errors + 1 := by
  constructor <;>
    simp [handleBrokerMessage, hty, h1, h2, h3, unknownTypeCase, addErrors, addSent,
      addReceived]

/-- Concrete witness for c10_unknown_type_error_reply: a "ping" frame. -/
theorem c10_unknown_type_error_reply_witness :
    pingFrame.type = some (JsonValue.str "ping") ∧
    "ping" ≠ "join" ∧ "ping" ≠ "message" ∧ "ping" ≠ "progress_update" ∧
    ((handleBrokerMessage twoMemberState 0 pingFrame).2 =
      [(0, OutMsg.errorMsg ("Unknown message type: " ++ "ping"))] ∧
    (handleBrokerMessage twoMemberState 0 pingFrame).1.stats.errors =
      twoMemberState.stats.errors + 1) :=
  ⟨rfl, by decide, by decide, by decide,
   c10_unknown_type_error_reply twoMemberState 0 pingFrame "ping" rfl
     (by decide) (by decide) (by decide)⟩

/-- Claim C3: a freshly registered pending request (command timer with 3
remaining extensions and multiplier 1) that receives no response and no
progress frame is NOT rejected on the first, second or third deadline
expiry — each merely consumes one extension and reschedules — and is
rejected with the timeout error and removed from the pending table exactly
on the fourth expiry. -/
theorem c3_timeout_only_after_three_extensions
    (st : DispatcherState) (id : String) (baseMs t0 n1 n2 n3 n4 : Nat)
    (h : tblGet st.pending id = some ⟨TimerKind.command 3 1 baseMs, t0⟩) :
    let r1 := fireTimeout st id n1
    let r2 := fireTimeout r1.1 id n2
    let r3 := fireTimeout r2.1 id n3
    let r4 := fireTimeout r3.1 id n4
    r1.2 = none ∧ hasKey r1.1.pending id = true ∧
    r2.2 = none ∧ hasKey r2.1.pending id = true ∧
    r3.2 = none ∧ hasKey r3.1.pending id = true ∧
    r4.2 = some (id, timeoutMessage (n4 - t0)) ∧ hasKey r4.1.pending id = false := by
  intro r1 r2 r3 r4
  have e1 : r1 =
      ({ st with pending := tblSet st.pending id ⟨TimerKind.command 2 2 baseMs, t0⟩ }, none) := by
    simp [r1, fireTimeout, h]
  have g1 : tblGet (tblSet st.pending id
      (⟨TimerKind.command 2 2 baseMs, t0⟩ : PendingEntry)) id =
      some ⟨TimerKind.command 2 2 baseMs, t0⟩ := tblGet_tblSet_self _ _ _
  have e2 : r2 =
      ({ st with pending := (tblSet (tblSet st.pending id ⟨TimerKind.command 2 2 baseMs, t0⟩) id
          ⟨TimerKind.command 1 3 baseMs, t0⟩) }, none) := by
    simp [r2, e1, fireTimeout, g1]
  have g2 : tblGet (tblSet (tblSet st.pending id ⟨TimerKind.command 2 2 baseMs, t0⟩) id
      (⟨TimerKind.command 1 3 baseMs, t0⟩ : PendingEntry)) id =
      some ⟨TimerKind.command 1 3 baseMs, t0⟩ := tblGet_tblSet_self _ _ _
  have e3 : r3 =
      ({ st with pending :=
          (tblSet (tblSet (tblSet st.pending id ⟨TimerKind.command 2 2 baseMs, t0⟩) id
            ⟨TimerKind.command 1 3 baseMs, t0⟩) id ⟨TimerKind.command 0 4 baseMs, t0⟩) },
       none) := by
    simp [r3, e2, fireTimeout, g2]
  have g3 : tblGet (tblSet (tblSet (tblSet st.pending id ⟨TimerKind.command 2 2 baseMs, t0⟩) id
      ⟨TimerKind.command 1 3 baseMs, t0⟩) id
      (⟨TimerKind.command 0 4 baseMs, t0⟩ : PendingEntry)) id =
      some ⟨TimerKind.command 0 4 baseMs, t0⟩ := tblGet_tblSet_self _ _ _
  have e4 : r4 =
      ({ st with pending :=
          (tblDel (tblSet (tblSet (tblSet st.pending id ⟨TimerKind.command 2 2 baseMs, t0⟩) id
            ⟨TimerKind.command 1 3 baseMs, t0⟩) id ⟨TimerKind.command 0 4 baseMs, t0⟩) id) },
       some (id, timeoutMessage (n4 - t0))) := by
    simp [r4, e3, fireTimeout, g3]
  refine ⟨by simp [e1], ?_, by simp [e2], ?_, by simp [e3], ?_, by simp [e4], ?_⟩
  · simp [e1, hasKey, g1]
  · simp [e2, hasKey, g2]
  · simp [e3, hasKey, g3]
  · simp [e4, hasKey_tblDel_self]

/-- Concrete witness for c3_timeout_only_after_three_extensions: one fresh
pending request "cmd1" with base timeout 10 and lastActivity 100. -/
theorem c3_timeout_only_after_three_extensions_witness :
    tblGet pendingCmd1State.pending "cmd1" = some ⟨TimerKind.command 3 1 10, 100⟩ ∧
    (let r1 := fireTimeout pendingCmd1State "cmd1" 111
     let r2 := fireTimeout r1.1 "cmd1" 222
     let r3 := fireTimeout r2.1 "cmd1" 333
     let r4 := fireTimeout r3.1 "cmd1" 444
     r1.2 = none ∧ hasKey r1.1.pending "cmd1" = true ∧
     r2.2 = none ∧ hasKey r2.1.pending "cmd1" = true ∧
     r3.2 = none ∧ hasKey r3.1.pending "cmd1" = true ∧
     r4.2 = some ("cmd1", timeoutMessage (444 - 100)) ∧
     hasKey r4.1.pending "cmd1" = false) :=
  ⟨rfl, c3_timeout_only_after_three_extensions pendingCmd1State "cmd1" 10 100 111 222 333 444 rfl⟩

/-- Claim C4: when the connection closes, every request pending at that
moment is rejected with the connection-lost error (one rejection per
entry, in table order), the pending table is empty immediately afterwards,
and no timer of a formerly pending request can fire any more. -/
theorem c4_close_rejects_all_pending (st : DispatcherState) (code : Nat) (reason : String) :
    (handleClose st code reason).1.pending = [] ∧
    (handleClose st code reason).2 =
      st.pending.map (fun q => (q.1, connectionLostMessage code reason q.1)) ∧
    ∀ id now, fireTimeout (handleClose st code reason).1 id now =
      ((handleClose st code reason).1, none) :=
  ⟨rfl, rfl, fun _ _ => rfl⟩

/-- Claim C5: a non-progress frame with no top-level id, whose nested
message carries an id equal to a pending request's id together with a
result or error field, is matched by Strategy 3 ("nested_message_id"): the
request is removed from the pending table and settled — resolved with the
nested result, or rejected when the nested error value is truthy
(resolveOutcome). -/
theorem c5_nested_id_strategy3 (st : DispatcherState) (m : WSMessage) (nid : String) (now : Nat)
    (hty : m.type ≠ some "progress_update")
    (hid : m.id = none)
    (hnid : optField m.message "id" = some (JsonValue.str nid))
    (hne : nid ≠ "")
    (hpend : hasKey st.pending nid = true)
    (hre : (optField m.message "result").isSome = true ∨
      (optField m.message "error").isSome = true) :
    handleIncoming st m now =
      ({ st with pending := tblDel st.pending nid },
       some ⟨nid, resolveOutcome (optField m.message "result") (optField m.message "error"),
         "nested_message_id"⟩) := by
  have hpend' : ∃ e, tblGet st.pending nid = some e := by
    have h := hpend
    simpa [hasKey, Option.isSome_iff_exists] using h
  obtain ⟨entry, hent⟩ := hpend'
  rcases hre with hre | hre <;>
    simp [handleIncoming, handleProgressUpdate, hty, handleMessageResponse, strategyMatch,
      hid, hnid, hne, hpend, hent, idMatchesPending, jsonIdMatchesPending, jsonIdString,
      resolveRequest, hre, bne_iff_ne]

/-- Concrete witness for c5_nested_id_strategy3: pending request "abc" and
a frame whose nested message holds id "abc" and a numeric result. -/
theorem c5_nested_id_strategy3_witness :
    nestedIdFrame.type ≠ some "progress_update" ∧
    nestedIdFrame.id = none ∧
    optField nestedIdFrame.message "id" = some (JsonValue.str "abc") ∧
    "abc" ≠ "" ∧
    hasKey pendingAbcState.pending "abc" = true ∧
    ((optField nestedIdFrame.message "result").isSome = true ∨
      (optField nestedIdFrame.message "error").isSome = true) ∧
    handleIncoming pendingAbcState nestedIdFrame 77 =
      ({ pendingAbcState with pending := tblDel pendingAbcState.pending "abc" },
       some ⟨"abc", resolveOutcome (optField nestedIdFrame.message "result")
         (optField nestedIdFrame.message "error"), "nested_message_id"⟩) :=
  ⟨by decide, rfl, rfl, by decide, rfl, Or.inl rfl,
   c5_nested_id_strategy3 pendingAbcState nestedIdFrame "abc" 77 (by decide) rfl rfl
     (by decide) rfl (Or.inl rfl)⟩

/-- Claim C6: a progress frame whose correlation id names a pending request
(and which carries progress data) updates that request's lastActivity to
the processing time, replaces its timer with the fixed 60000ms
progress-extension timer, settles nothing (no resolution or rejection event
is emitted), and leaves the request in the pending table. -/
theorem c6_progress_extends_timeout (st : DispatcherState) (m : WSMessage) (rid : String)
    (now : Nat)
    (hty : m.type = some "progress_update")
    (hrid : progressRequestId m = some (JsonValue.str rid))
    (hne : rid ≠ "")
    (hpend : hasKey st.pending rid = true)
    (hdata : jsTruthyOpt (optField m.message "data") = true) :
    handleIncoming st m now =
      ({ st with pending := tblSet st.pending rid (progressEntry m now) }, none) ∧
    hasKey (tblSet st.pending rid (progressEntry m now)) rid = true ∧
    (progressEntry m now).timer =
      TimerKind.progressExt 60000 (progressCommandDisplay m) ∧
    (progressEntry m now).lastActivity = now := by
  refine ⟨?_, hasKey_tblSet_self _ _ _, rfl, rfl⟩
  have hr : jsTruthyOpt (some (JsonValue.str rid)) = true := by
    simp [jsTruthyOpt, truthy, bne_iff_ne, hne]
  simp [handleIncoming, handleProgressUpdate, hty, hrid, hr, hpend, hdata,
    pendingHasJson, jsonIdString, progressEntry]

/-- Concrete witness for c6_progress_extends_timeout: pending request "abc"
and a progress_update frame for it carrying status data. -/
theorem c6_progress_extends_timeout_witness :
    progressKnownFrame.type = some "progress_update" ∧
    progressRequestId progressKnownFrame = some (JsonValue.str "abc") ∧
    "abc" ≠ "" ∧
    hasKey pendingAbcState.pending "abc" = true ∧
    jsTruthyOpt (optField progressKnownFrame.message "data") = true ∧
    (handleIncoming pendingAbcState progressKnownFrame 99 =
      ({ pendingAbcState with
          pending := tblSet pendingAbcState.pending "abc" (progressEntry progressKnownFrame 99) },
       none) ∧
    hasKey (tblSet pendingAbcState.pending "abc" (progressEntry progressKnownFrame 99)) "abc" =
      true ∧
    (progressEntry progressKnownFrame 99).timer =
      TimerKind.progressExt 60000 (progressCommandDisplay progressKnownFrame) ∧
    (progressEntry progressKnownFrame 99).lastActivity = 99) :=
  ⟨rfl, rfl, by decide, rfl, rfl,
   c6_progress_extends_timeout pendingAbcState progressKnownFrame "abc" 99 rfl rfl
     (by decide) rfl rfl⟩

/-- Claim C7: a progress frame whose correlation id matches no pending
request is handled without any exception (the handler is total), emits no
settlement, creates no pending entry and leaves the dispatcher state
entirely unchanged. -/
theorem c7_progress_unknown_id_noop (st : DispatcherState) (m : WSMessage) (now : Nat)
    (hty : m.type = some "progress_update")
    (hpend : pendingHasJson st.pending (progressRequestId m) = false) :
    handleIncoming st m now = (st, none) := by
  simp [handleIncoming, handleProgressUpdate, hty, hpend]

/-- Concrete witness for c7_progress_unknown_id_noop: a progress_update
frame for the unknown id "zzz". -/
theorem c7_progress_unknown_id_noop_witness :
    progressUnknownFrame.type = some "progress_update" ∧
    pendingHasJson pendingAbcState.pending (progressRequestId progressUnknownFrame) = false ∧
    handleIncoming pendingAbcState progressUnknownFrame 99 = (pendingAbcState, none) :=
  ⟨rfl, rfl, c7_progress_unknown_id_noop pendingAbcState progressUnknownFrame 99 rfl rfl⟩

/-- Claim C8: with the socket open but no channel joined, any command other
than "join" is rejected with the must-join error; the state (in particular
the pending table) is unchanged, no frame is transmitted, and no connect is
initiated. -/
theorem c8_must_join_rejected (st : DispatcherState) (command : String)
    (params : List (String × JsonValue)) (timeoutMs : Nat) (freshId : String) (now : Nat)
    (hopen : wsIsOpen st.conn = true)
    (hcmd : command ≠ "join")
    (hch : st.currentChannel = none) :
    sendCommandToFigma st command params timeoutMs freshId now =
      ⟨st, SendOutcome.rejected "Must join a channel before sending commands", none, false⟩ := by
  simp [sendCommandToFigma, hopen, hcmd, hch, truthyStrOpt, bne_iff_ne]

/-- Concrete witness for c8_must_join_rejected: an open socket, no channel,
and the command get_document_info. -/
theorem c8_must_join_rejected_witness :
    wsIsOpen openNoChannelState.conn = true ∧
    "get_document_info" ≠ "join" ∧
    openNoChannelState.currentChannel = none ∧
    sendCommandToFigma openNoChannelState "get_document_info" [] 60000 "u1" 0 =
      ⟨openNoChannelState, SendOutcome.rejected "Must join a channel before sending commands",
       none, false⟩ :=
  ⟨rfl, by decide, rfl,
   c8_must_join_rejected openNoChannelState "get_document_info" [] 60000 "u1" 0 rfl
     (by decide) rfl⟩

/-- Claim C9: with the socket not open and no connection config ever saved
(savedServerUrl still its initial empty value), sendCommandToFigma returns
the config-not-set rejection: no synchronous exception (the function is
total and yields a rejection outcome), no connect attempt, no transmitted
frame, and an unchanged state. -/
theorem c9_no_config_rejected (st : DispatcherState) (command : String)
    (params : List (String × JsonValue)) (timeoutMs : Nat) (freshId : String) (now : Nat)
    (hclosed : wsIsOpen st.conn = false)
    (hurl : st.savedServerUrl = "") :
    sendCommandToFigma st command params timeoutMs freshId now =
      ⟨st, SendOutcome.rejected "Not connected to Figma. Please ensure connection config is set.",
       none, false⟩ := by
  simp [sendCommandToFigma, hclosed, hurl]

/-- Concrete witness for c9_no_config_rejected: the initial dispatcher
state (no socket, empty savedServerUrl). -/
theorem c9_no_config_rejected_witness :
    wsIsOpen initialDispatcherState.conn = false ∧
    initialDispatcherState.savedServerUrl = "" ∧
    sendCommandToFigma initialDispatcherState "get_document_info" [] 60000 "u1" 0 =
      ⟨initialDispatcherState,
       SendOutcome.rejected "Not connected to Figma. Please ensure connection config is set.",
       none, false⟩ :=
  ⟨rfl, rfl,
   c9_no_config_rejected initialDispatcherState "get_document_info" [] 60000 "u1" 0 rfl rfl⟩

end Conduit
